import Mathlib

/-!
Verification of the IoPet desktop-companion core (src/io_pet.py, src/voice.py).

The development shallowly embeds the pieces of the program that the claims
concern:

* the persisted conversation log (`load_history`, `save_history`, and the
  append-with-cap step inside `ChatBubble._call_llm`);
* the backend dispatcher `ChatBubble._call_llm` (primary `/chat` endpoint,
  Ollama fallback, classification into chat/agent/fallback display);
* the confirm/cancel handlers `_on_confirm_execute` / `_on_cancel_execute`;
* the input paths `send_message` / `_on_voice_text`;
* the TTS fallback logic of `VoiceModule._speak_edge`.

Network and filesystem effects are made explicit: each HTTP call is a
parameter of type `Option`/a response structure (`none` models the request
raising an exception, which the source catches), and the history file is a
`FileState` value threaded through the functions.  JSON (de)serialisation is
the Python standard library's; the file is therefore modelled at the parsed
value level: a well-formed store holds the list of turn records, and
`FileState.malformed` models a file whose contents `json.load` rejects.
Writes performed by `save_history` are modelled as succeeding (the source
swallows write errors; no claim depends on a failing write).
-/

/-- One record of `chat_history.json`: `{time, user, ai}`
(see the dict literal appended in `_call_llm`). -/
structure Turn where
  time : String
  user : String
  ai : String
deriving DecidableEq, Repr

/-- The `pending_code` object delivered by the `/chat` endpoint
(`{language, code}`); `none` at use sites models the JSON value being
absent/`null` (`result.get("pending_code")`). -/
structure PendingCode where
  language : String
  code : String
deriving DecidableEq, Repr

/-- Outcome of the primary `requests.post("http://localhost:8000/chat", ...)`
when it does not raise: HTTP status plus the fields `_call_llm` reads from the
parsed JSON body, with the Python defaults already folded in
(`response` is `result.get("response", "")`, `mode` is
`result.get("mode", "chat")`). -/
structure ChatResp where
  status : Nat
  response : String
  pending_code : Option PendingCode
  mode : String
deriving DecidableEq, Repr

/-- Outcome of the Ollama fallback `requests.post(".../api/chat", ...)` when it
does not raise: HTTP status plus `result.get("message", {}).get("content", "")`. -/
structure OllamaResp where
  status : Nat
  content : String
deriving DecidableEq, Repr

/-- State of the backing store `chat_history.json`, at the parsed-value level:
`missing` — `os.path.exists` is false; `unreadable` — the file exists but
opening/reading it raises; `malformed` — `json.load` raises on its contents;
`stored h` — the file holds the JSON serialisation of the turn list `h`. -/
inductive FileState
  | missing
  | unreadable
  | malformed
  | stored (entries : List Turn)
deriving DecidableEq, Repr

/-- Source `load_history` (io_pet.py): returns the parsed list when the file exists
and parses, `[]` otherwise (the `except` arm and the missing-file arm).  Total
by construction — the source catches every exception. -/
def load_history : FileState → List Turn
  | FileState.missing => []
  | FileState.unreadable => []
  | FileState.malformed => []
  | FileState.stored h => h

/-- Source `save_history` (io_pet.py): rewrites the whole file with the serialisation
of `h` (successful-write model; the source swallows write failures). -/
def save_history (h : List Turn) : FileState :=
  FileState.stored h

/-- The append-and-cap step of `_call_llm`:
`history.append(entry); if len(history) > 100: history = history[-100:]`. -/
def capAppend (history : List Turn) (t : Turn) : List Turn :=
  let h := history ++ [t]
  if h.length > 100 then h.drop (h.length - 100) else h

/-- The Python slice `l[-n:]`: the last `n` elements (all of `l` when
`l.length ≤ n`). -/
def lastN (n : Nat) (l : List Turn) : List Turn :=
  l.drop (l.length - n)

/-- What `_call_llm` hands to the UI thread: either the
`response_ready` signal or the `code_confirm_ready` signal. -/
inductive UiEvent
  | responseReady (text : String)
  | codeConfirm (text : String) (pending : PendingCode)
deriving DecidableEq, Repr

/-- The fixed connectivity-error message emitted when the Ollama fallback
request raises (io_pet.py line 539). -/
def connectErrorMsg : String := "无法连接\n请确保服务正在运行"

/-- The fixed default message emitted when no backend produced a usable
reply but the fallback request did not raise (io_pet.py line 568). -/
def dontKnowMsg : String := "嗯...我不知道该说什么"

/-- The "didn't catch that" message of `_on_voice_text`. -/
def noCatchMsg : String := "没听清，再说一次？"

/-- The cancellation notice of `_on_cancel_execute`. -/
def cancelMsg : String := "[Agent] 已取消执行"

/-- The lookup `{"chat": "[Chat]", "agent": "[Agent]", "fallback": "[Backup]"}.get(mode, "")`. -/
def modeLabel (mode : String) : String :=
  if mode == "chat" then "[Chat]"
  else if mode == "agent" then "[Agent]"
  else if mode == "fallback" then "[Backup]"
  else ""

/-- Python truthiness of the `answer` variable (`None` or a string). -/
def truthy : Option String → Bool
  | Option.none => false
  | Option.some s => !s.isEmpty

/-- Everything observable about one run of `_call_llm`: the UI signal it
emits, the history file afterwards, the final values of its `mode` /
`pending_code` / `answer` locals, and how many times the Ollama fallback
endpoint was contacted. -/
structure CallResult where
  ui : UiEvent
  file : FileState
  mode : String
  pending : Option PendingCode
  answer : Option String
  fallbackCalls : Nat
deriving DecidableEq, Repr

/-- The tail of `_call_llm` (from `# 发送结果`): if `answer` is truthy, append
the capped turn (`ai` truncated to 200 characters) and persist, then route to
the confirmation signal when `pending_code and mode == "agent"`, else to a
labelled plain reply; if `answer` is falsy, emit the fixed default message and
leave the file untouched. -/
def finishTurn (file : FileState) (now prompt : String) (answer : Option String)
    (pending : Option PendingCode) (mode : String) (fbCalls : Nat) : CallResult :=
  match answer with
  | Option.none =>
      { ui := UiEvent.responseReady dontKnowMsg, file := file, mode := mode,
        pending := pending, answer := answer, fallbackCalls := fbCalls }
  | Option.some ans =>
      if ans.isEmpty then
        { ui := UiEvent.responseReady dontKnowMsg, file := file, mode := mode,
          pending := pending, answer := answer, fallbackCalls := fbCalls }
      else
        let history := load_history file
        let history' := capAppend history { time := now, user := prompt, ai := ans.take 200 }
        let file' := save_history history'
        match pending with
        | Option.some pc =>
            if mode == "agent" then
              { ui := UiEvent.codeConfirm ans pc, file := file', mode := mode,
                pending := pending, answer := answer, fallbackCalls := fbCalls }
            else
              { ui := UiEvent.responseReady (modeLabel mode ++ " " ++ ans), file := file',
                mode := mode, pending := pending, answer := answer, fallbackCalls := fbCalls }
        | Option.none =>
            { ui := UiEvent.responseReady (modeLabel mode ++ " " ++ ans), file := file',
              mode := mode, pending := pending, answer := answer, fallbackCalls := fbCalls }

/-- Source `ChatBubble._call_llm` as a function of its two network interactions.
`primary = none` models the `/chat` request raising (caught by the bare
`except`); `fb = none` models the Ollama request raising.  Mirrors the
source: primary attempt sets `answer`/`pending_code`/`mode` only on HTTP
200; a falsy `answer` switches `mode` to `"fallback"` and tries Ollama,
whose raising arm emits the connectivity message and returns early. -/
def primaryStep : Option ChatResp → Option String × Option PendingCode × String
  | Option.none => (Option.none, Option.none, "chat")
  | Option.some r =>
      if r.status == 200 then (Option.some r.response, r.pending_code, r.mode)
      else (Option.none, Option.none, "chat")

/-- The body of `_call_llm` given the outcomes of its two network
interactions; `primaryStep` above is its primary-attempt prologue (the
values of the `answer` / `pending_code` / `mode` locals after the `/chat`
try-block). -/
def callLlm (file : FileState) (now prompt : String)
    (primary : Option ChatResp) (fb : Option OllamaResp) : CallResult :=
  let step1 := primaryStep primary
  let answer := step1.1
  let pending := step1.2.1
  let mode := step1.2.2
  if truthy answer then
    finishTurn file now prompt answer pending mode 0
  else
    match fb with
    | Option.none =>
        { ui := UiEvent.responseReady connectErrorMsg, file := file, mode := "fallback",
          pending := pending, answer := answer, fallbackCalls := 1 }
    | Option.some o =>
        let answer2 := if o.status == 200 then Option.some o.content else answer
        finishTurn file now prompt answer2 pending "fallback" 1

/-- The primary attempt produced no usable reply: the request raised, or the
status was not 200, or the `response` field was empty (`if not answer`). -/
def primaryNoReply : Option ChatResp → Bool
  | Option.none => true
  | Option.some r => !(r.status == 200) || r.response.isEmpty

/-- The fallback attempt produced no usable reply: the request raised, or the
status was not 200, or the `content` field was empty. -/
def fallbackNoReply : Option OllamaResp → Bool
  | Option.none => true
  | Option.some o => !(o.status == 200) || o.content.isEmpty

/-- UI-side state touched by the confirm/cancel handlers of `ChatBubble`,
together with the (never-touched-there) history file. -/
structure BubbleState where
  pending : Option PendingCode
  display : String
  file : FileState
deriving DecidableEq, Repr

/-- Outcome of the `requests.post("http://localhost:8000/execute", ...)` call:
`raised msg` — the request (or parsing its body) raised an exception whose
`str` is `msg`; `responded status output` — an HTTP response arrived, with
`output = result.get("output", "无输出")` relevant on status 200. -/
inductive ExecOutcome
  | raised (msg : String)
  | responded (status : Nat) (output : String)
deriving DecidableEq, Repr

/-- The text `_on_confirm_execute` displays for each execution outcome. -/
def execDisplay : ExecOutcome → String
  | ExecOutcome.raised msg => "执行出错: " ++ msg.take 50
  | ExecOutcome.responded status output =>
      if status == 200 then "[Agent] 执行完成:\n" ++ output else "执行失败"

/-- Result of a confirm/cancel handler: the new state and the number of
`/execute` POSTs the handler made. -/
structure ConfirmResult where
  state : BubbleState
  executeCalls : Nat
deriving DecidableEq, Repr

/-- Source `ChatBubble._on_confirm_execute`: early-returns when no pending code;
otherwise POSTs `/execute` once, displays the outcome text, and
unconditionally runs `_hide_confirm_buttons`, which sets `pending_code = None`.
The history file is not touched on any path. -/
def onConfirmExecute (st : BubbleState) (outcome : ExecOutcome) : ConfirmResult :=
  match st.pending with
  | Option.none => { state := st, executeCalls := 0 }
  | Option.some _ =>
      { state := { pending := Option.none, display := execDisplay outcome, file := st.file },
        executeCalls := 1 }

/-- Source `ChatBubble._on_cancel_execute`: clears the pending code, hides the
buttons, shows the cancellation notice; makes no network call and does not
touch the history file. -/
def onCancelExecute (st : BubbleState) : ConfirmResult :=
  { state := { pending := Option.none, display := cancelMsg, file := st.file },
    executeCalls := 0 }

/-- Observable outcome of one `send_message`/`_on_voice_text` entry:
whether a `_call_llm` worker was started (and hence whether the log could
change), the file afterwards, and the UI signal produced, if any. -/
structure StepResult where
  file : FileState
  dispatched : Bool
  ui : Option UiEvent
deriving DecidableEq, Repr

/-- Python `str.strip()`: the input without leading and trailing
whitespace, modelled on the character sequence. -/
def strip (s : String) : String :=
  String.mk ((s.data.dropWhile Char.isWhitespace).reverse.dropWhile Char.isWhitespace).reverse

/-- Source `ChatBubble.send_message`: strips the input; an empty strip result
returns before any worker is spawned or the log touched; otherwise the
stripped text is dispatched through `_call_llm`. -/
def send_message (file : FileState) (now input : String)
    (primary : Option ChatResp) (fb : Option OllamaResp) : StepResult :=
  let text := strip input
  if text.isEmpty then
    { file := file, dispatched := false, ui := Option.none }
  else
    let r := callLlm file now text primary fb
    { file := r.file, dispatched := true, ui := Option.some r.ui }

/-- Source `ChatBubble._on_voice_text`: an empty transcript shows the
"didn't catch that" message and dispatches nothing; a non-empty transcript is
placed in the input field and auto-sent through `send_message`. -/
def onVoiceText (file : FileState) (now text : String)
    (primary : Option ChatResp) (fb : Option OllamaResp) : StepResult :=
  if text.isEmpty then
    { file := file, dispatched := false,
      ui := Option.some (UiEvent.responseReady noCatchMsg) }
  else
    send_message file now text primary fb

/-- How one run of `VoiceModule._speak_edge`'s inner coroutine went:
`ok` — synthesis and playback succeeded; `importError msg` — `import edge_tts`
or `import pygame` raised `ImportError`; `runtimeError msg` — any other
exception inside the coroutine (network failure while saving the synthesis,
playback failure, ...); `asyncRaised` — `asyncio.run` itself raised. -/
inductive EdgeOutcome
  | ok
  | importError (msg : String)
  | runtimeError (msg : String)
  | asyncRaised
deriving DecidableEq, Repr

/-- Observable effects of the TTS path. -/
inductive TtsEffect
  | edgePlay (text : String)
  | printMsg (msg : String)
  | offlineSpeak (text : String)
deriving DecidableEq, Repr

/-- Source `VoiceModule._speak_edge` as the sequence of effects it performs, per
outcome of the coroutine: an `ImportError` prints and falls back to
`_speak_offline`; any other exception inside the coroutine only prints; a
failure of `asyncio.run` itself hits the outer `except` and falls back. -/
def speak_edge (text : String) (outcome : EdgeOutcome) : List TtsEffect :=
  match outcome with
  | EdgeOutcome.ok => [TtsEffect.edgePlay text]
  | EdgeOutcome.importError m =>
      [TtsEffect.printMsg ("[Voice] edge-tts error: " ++ m), TtsEffect.offlineSpeak text]
  | EdgeOutcome.runtimeError m =>
      [TtsEffect.printMsg ("[Voice] edge-tts error: " ++ m)]
  | EdgeOutcome.asyncRaised => [TtsEffect.offlineSpeak text]

/-- Source `VoiceModule.speak`: empty text is dropped; the `"edge"` engine routes
through `_speak_edge`, every other engine value through `_speak_offline`. -/
def speak (engine text : String) (outcome : EdgeOutcome) : List TtsEffect :=
  if text.isEmpty then []
  else if engine == "edge" then speak_edge text outcome
  else [TtsEffect.offlineSpeak text]

/-! ## Helper lemmas about the capped log -/

theorem capAppend_eq_lastN (h : List Turn) (t : Turn) :
    capAppend h t = lastN 100 (h ++ [t]) := by
  simp only [capAppend, lastN]
  split
  · rfl
  · next hle =>
    have h0 : (h ++ [t]).length - 100 = 0 := by omega
    rw [h0, List.drop_zero]

theorem lastN_of_le (n : Nat) (l : List Turn) (h : l.length ≤ n) : lastN n l = l := by
  unfold lastN
  have h0 : l.length - n = 0 := by omega
  simp [h0]

theorem lastN_length_le (n : Nat) (l : List Turn) : (lastN n l).length ≤ n := by
  unfold lastN
  rw [List.length_drop]
  omega

theorem lastN_append_lastN (n : Nat) (l m : List Turn) :
    lastN n (lastN n l ++ m) = lastN n (l ++ m) := by
  unfold lastN
  rcases le_or_lt l.length n with h | h
  · have h0 : l.length - n = 0 := by omega
    simp [h0]
  · simp only [List.length_append, List.length_drop]
    rw [List.drop_append_eq_append_drop, List.drop_append_eq_append_drop,
        List.drop_drop]
    simp only [List.length_drop]
    congr 1
    · congr 1
      omega
    · congr 1
      omega

theorem foldl_capAppend (ts : List Turn) : ∀ init : List Turn, init.length ≤ 100 →
    List.foldl capAppend init ts = lastN 100 (init ++ ts) := by
  induction ts with
  | nil =>
      intro init h
      simp [lastN_of_le 100 init h]
  | cons t ts ih =>
      intro init h
      rw [List.foldl_cons, ih (capAppend init t)
            (by rw [capAppend_eq_lastN]; exact lastN_length_le 100 _),
          capAppend_eq_lastN, lastN_append_lastN]
      simp

/-! ## Claim theorems: conversation log -/

/-- C2: For every sequence of appends longer than the cap of 100, the final
log has length exactly 100 and consists of exactly the 100 most-recently
appended turns, oldest first (FIFO eviction); appending below the cap grows
the log by exactly one with the new turn last. -/
theorem log_cap_fifo :
    (∀ (init ts : List Turn), init.length ≤ 100 → 100 < ts.length →
       (List.foldl capAppend init ts).length = 100 ∧
       List.foldl capAppend init ts = ts.drop (ts.length - 100)) ∧
    (∀ (h : List Turn) (t : Turn), h.length < 100 →
       capAppend h t = h ++ [t]) := by
  constructor
  · intro init ts hinit hts
    have hfold := foldl_capAppend ts init hinit
    have heq : lastN 100 (init ++ ts) = ts.drop (ts.length - 100) := by
      unfold lastN
      rw [List.length_append, List.drop_append_eq_append_drop,
          List.drop_eq_nil_of_le (by omega : init.length ≤ init.length + ts.length - 100)]
      have h2 : init.length + ts.length - 100 - init.length = ts.length - 100 := by omega
      rw [h2, List.nil_append]
    refine ⟨?_, hfold.trans heq⟩
    rw [hfold, heq, List.length_drop]
    omega
  · intro h t hlt
    simp only [capAppend]
    have hle : ¬ (h ++ [t]).length > 100 := by
      simp only [List.length_append, List.length_singleton]
      omega
    rw [if_neg hle]

theorem log_cap_fifo_witness :
    (List.foldl capAppend [] (List.replicate 101 (⟨"t", "u", "a"⟩ : Turn))).length = 100 ∧
    capAppend [] (⟨"t", "u", "a"⟩ : Turn) = [⟨"t", "u", "a"⟩] :=
  ⟨(log_cap_fifo.1 [] (List.replicate 101 (⟨"t", "u", "a"⟩ : Turn))
      (by decide) (by decide)).1,
   log_cap_fifo.2 [] (⟨"t", "u", "a"⟩ : Turn) (by decide)⟩

/-- C6: Storing a turn sequence within the cap and loading it back yields the
same sequence: `load_history (save_history turns) = turns`. -/
theorem load_save_roundtrip (turns : List Turn) (_h : turns.length ≤ 100) :
    load_history (save_history turns) = turns := rfl

theorem load_save_roundtrip_witness :
    load_history (save_history [(⟨"2024-01-01", "hi", "yo"⟩ : Turn)]) =
      [(⟨"2024-01-01", "hi", "yo"⟩ : Turn)] :=
  load_save_roundtrip [(⟨"2024-01-01", "hi", "yo"⟩ : Turn)] (by decide)

/-- C7: Loading the conversation log yields the empty sequence whenever the
backing file is missing, unreadable, or holds content `json.load` rejects;
`load_history` is a total function of the file state, so it never raises. -/
theorem load_history_fails_soft :
    load_history FileState.missing = [] ∧
    load_history FileState.unreadable = [] ∧
    load_history FileState.malformed = [] :=
  ⟨rfl, rfl, rfl⟩

/-! ## Helper lemmas about the dispatcher -/

theorem finishTurn_fallbackCalls (file : FileState) (now prompt : String)
    (a : Option String) (pd : Option PendingCode) (m : String) (c : Nat) :
    (finishTurn file now prompt a pd m c).fallbackCalls = c := by
  unfold finishTurn
  cases a <;> (try (repeat' split)) <;> rfl

theorem finishTurn_mode (file : FileState) (now prompt : String)
    (a : Option String) (pd : Option PendingCode) (m : String) (c : Nat) :
    (finishTurn file now prompt a pd m c).mode = m := by
  unfold finishTurn
  cases a <;> (try (repeat' split)) <;> rfl

theorem finishTurn_pending (file : FileState) (now prompt : String)
    (a : Option String) (pd : Option PendingCode) (m : String) (c : Nat) :
    (finishTurn file now prompt a pd m c).pending = pd := by
  unfold finishTurn
  cases a <;> (try (repeat' split)) <;> rfl

theorem finishTurn_confirm_iff (file : FileState) (now prompt : String)
    (a : Option String) (pd : Option PendingCode) (m : String) (c : Nat) :
    (∃ t pc, (finishTurn file now prompt a pd m c).ui = UiEvent.codeConfirm t pc) ↔
      (truthy a = true ∧ pd.isSome = true ∧ m = "agent") := by
  cases a <;> cases pd <;> simp [finishTurn, truthy] <;>
    (try (repeat' split)) <;> simp_all

/-! ## Claim theorems: backend dispatcher -/

/-- C3: A dispatch contacts the Ollama fallback exactly when the primary
attempt produced no usable reply (request raised, non-200 status, or empty
`response` field): never when the primary reply is non-empty, and exactly
once otherwise. -/
theorem fallback_exactly_once (file : FileState) (now prompt : String)
    (primary : Option ChatResp) (fb : Option OllamaResp) :
    (primaryNoReply primary = false →
       (callLlm file now prompt primary fb).fallbackCalls = 0) ∧
    (primaryNoReply primary = true →
       (callLlm file now prompt primary fb).fallbackCalls = 1) := by
  rcases primary with _ | r
  · refine ⟨fun h => by simp [primaryNoReply] at h, fun _ => ?_⟩
    cases fb <;> simp [callLlm, primaryStep, truthy, finishTurn_fallbackCalls]
  · by_cases hs : r.status == 200
    · by_cases he : r.response.isEmpty
      · refine ⟨fun h => ?_, fun _ => ?_⟩
        · simp [primaryNoReply, hs, he] at h
        · cases fb <;> simp [callLlm, primaryStep, truthy, hs, he, finishTurn_fallbackCalls]
      · refine ⟨fun _ => ?_, fun h => ?_⟩
        · simp [callLlm, primaryStep, truthy, hs, he, finishTurn_fallbackCalls]
        · simp [primaryNoReply, hs, he] at h
    · refine ⟨fun h => ?_, fun _ => ?_⟩
      · simp [primaryNoReply, hs] at h
      · cases fb <;> simp [callLlm, primaryStep, truthy, hs, finishTurn_fallbackCalls]

theorem fallback_exactly_once_witness :
    (callLlm (FileState.stored []) "2024-01-01 00:00" "hello"
        (Option.some ⟨200, "hi", Option.none, "chat"⟩) Option.none).fallbackCalls = 0 ∧
    (callLlm (FileState.stored []) "2024-01-01 00:00" "hello"
        Option.none Option.none).fallbackCalls = 1 :=
  ⟨(fallback_exactly_once (FileState.stored []) "2024-01-01 00:00" "hello"
      (Option.some ⟨200, "hi", Option.none, "chat"⟩) Option.none).1 (by decide),
   (fallback_exactly_once (FileState.stored []) "2024-01-01 00:00" "hello"
      Option.none Option.none).2 rfl⟩

/-- C4: The dispatch result is routed to the code-confirmation state exactly
when the result's final mode is `"agent"` and its action payload is present;
with any other mode (in particular `"chat"` or `"fallback"`) an accompanying
payload is ignored and the reply is delivered as a plain `response_ready`
text. -/
theorem agent_confirm_iff (file : FileState) (now prompt : String)
    (primary : Option ChatResp) (fb : Option OllamaResp) :
    (∃ t pc, (callLlm file now prompt primary fb).ui = UiEvent.codeConfirm t pc) ↔
      ((callLlm file now prompt primary fb).mode = "agent" ∧
       (callLlm file now prompt primary fb).pending.isSome = true) := by
  rcases primary with _ | r
  · cases fb <;>
      simp [callLlm, primaryStep, truthy, finishTurn_confirm_iff, finishTurn_mode, finishTurn_pending]
  · by_cases hs : r.status == 200
    · by_cases he : r.response.isEmpty
      · cases fb <;>
          simp [callLlm, primaryStep, truthy, hs, he, finishTurn_confirm_iff, finishTurn_mode,
            finishTurn_pending]
      · simp [callLlm, primaryStep, truthy, hs, he, finishTurn_confirm_iff, finishTurn_mode,
          finishTurn_pending]
        tauto
    · cases fb <;>
        simp [callLlm, primaryStep, truthy, hs, finishTurn_confirm_iff, finishTurn_mode,
          finishTurn_pending]

theorem primaryStep_falsy (primary : Option ChatResp)
    (hp : primaryNoReply primary = true) :
    truthy (primaryStep primary).1 = false := by
  rcases primary with _ | r
  · rfl
  · simp only [primaryNoReply] at hp
    by_cases hs : r.status == 200
    · simp [hs] at hp
      simp [primaryStep, hs, truthy, hp]
    · simp [primaryStep, hs, truthy]

/-- C1 (counterexample): with an empty stored log, when both the `/chat`
request and the Ollama request raise, the emitted reply is the fixed
connectivity-error message but the conversation log is left empty — the
turn is NOT appended, contradicting the claim that it is. -/
theorem c1_both_fail_counterexample :
    (callLlm (FileState.stored []) "2024-01-01 00:00" "hi"
        Option.none Option.none).ui = UiEvent.responseReady connectErrorMsg ∧
    load_history (callLlm (FileState.stored []) "2024-01-01 00:00" "hi"
        Option.none Option.none).file = [] :=
  ⟨rfl, rfl⟩

/-- C1 (amended): when neither backend produces a usable reply, the
conversation log is left unchanged (the turn is not appended), and the
user-visible reply is the fixed connectivity-error message exactly when the
fallback request raised; when the fallback request completed without a
usable reply, the reply is the fixed default message instead. -/
theorem both_fail_no_append (file : FileState) (now prompt : String)
    (primary : Option ChatResp) (fb : Option OllamaResp)
    (hp : primaryNoReply primary = true) (hf : fallbackNoReply fb = true) :
    (callLlm file now prompt primary fb).file = file ∧
    (fb = Option.none →
       (callLlm file now prompt primary fb).ui = UiEvent.responseReady connectErrorMsg) ∧
    (fb ≠ Option.none →
       (callLlm file now prompt primary fb).ui = UiEvent.responseReady dontKnowMsg) := by
  have h0 := primaryStep_falsy primary hp
  rcases fb with _ | o
  · refine ⟨?_, fun _ => ?_, fun hne => absurd rfl hne⟩ <;> simp [callLlm, h0]
  · simp only [fallbackNoReply] at hf
    by_cases hs2 : o.status == 200
    · simp [hs2] at hf
      refine ⟨?_, fun heq => absurd heq (Option.some_ne_none o), fun _ => ?_⟩ <;>
        simp [callLlm, h0, hs2, finishTurn, hf]
    · rcases h1 : (primaryStep primary).1 with _ | s
      · refine ⟨?_, fun heq => absurd heq (Option.some_ne_none o), fun _ => ?_⟩ <;>
          simp [callLlm, truthy, h0, h1, hs2, finishTurn]
      · have hse : s.isEmpty = true := by
          rw [h1] at h0
          simpa [truthy] using h0
        refine ⟨?_, fun heq => absurd heq (Option.some_ne_none o), fun _ => ?_⟩ <;>
          simp [callLlm, truthy, h0, h1, hs2, finishTurn, hse]

theorem both_fail_no_append_witness :
    (callLlm (FileState.stored []) "2024-01-01 00:00" "hi" Option.none
        (Option.some (⟨500, ""⟩ : OllamaResp))).file = FileState.stored [] ∧
    (callLlm (FileState.stored []) "2024-01-01 00:00" "hi" Option.none
        (Option.some (⟨500, ""⟩ : OllamaResp))).ui = UiEvent.responseReady dontKnowMsg :=
  ⟨(both_fail_no_append (FileState.stored []) "2024-01-01 00:00" "hi" Option.none
      (Option.some (⟨500, ""⟩ : OllamaResp)) rfl (by decide)).1,
   (both_fail_no_append (FileState.stored []) "2024-01-01 00:00" "hi" Option.none
      (Option.some (⟨500, ""⟩ : OllamaResp)) rfl (by decide)).2.2 (by simp)⟩

/-! ## Claim theorems: confirm / cancel -/

/-- C5: After `_on_confirm_execute` the pending action is `None` whatever the
`/execute` call did (success, non-200 status, or exception); after
`_on_cancel_execute` the pending action is `None` and cancel made no network
call. -/
theorem confirm_cancel_clear_pending (st : BubbleState) (outcome : ExecOutcome) :
    (onConfirmExecute st outcome).state.pending = Option.none ∧
    (onCancelExecute st).state.pending = Option.none ∧
    (onCancelExecute st).executeCalls = 0 := by
  refine ⟨?_, rfl, rfl⟩
  cases h : st.pending <;> simp [onConfirmExecute, h]

/-- C10: Neither `_on_confirm_execute` nor `_on_cancel_execute` ever changes
the persisted conversation log: on every path the history file is exactly
what it was before. -/
theorem confirm_cancel_preserve_log (st : BubbleState) (outcome : ExecOutcome) :
    (onConfirmExecute st outcome).state.file = st.file ∧
    (onCancelExecute st).state.file = st.file := by
  refine ⟨?_, rfl⟩
  cases h : st.pending <;> simp [onConfirmExecute, h]

/-! ## Claim theorems: input handling -/

/-- C8: Input that strips to the empty string causes no dispatch and no log
write (`send_message` returns before spawning the worker), and an empty voice
transcript additionally shows only the "didn't catch that" message. -/
theorem empty_input_noop (file : FileState) (now input : String)
    (primary : Option ChatResp) (fb : Option OllamaResp)
    (h : (strip input).isEmpty = true) :
    send_message file now input primary fb =
      { file := file, dispatched := false, ui := Option.none } ∧
    onVoiceText file now "" primary fb =
      { file := file, dispatched := false,
        ui := Option.some (UiEvent.responseReady noCatchMsg) } := by
  constructor
  · simp [send_message, h]
  · rfl

theorem empty_input_noop_witness :
    send_message (FileState.stored []) "2024-01-01 00:00" "   " Option.none Option.none =
      { file := FileState.stored [], dispatched := false, ui := Option.none } :=
  (empty_input_noop (FileState.stored []) "2024-01-01 00:00" "   " Option.none Option.none
      (by decide)).1

/-! ## Claim theorems: speech synthesis fallback -/

/-- C9 (counterexample): with the non-empty text `"hello"`, a network/runtime
error raised inside the edge-TTS coroutine does NOT fall back to the offline
synthesizer — the error is only printed, contradicting the claim. -/
theorem runtime_error_no_fallback_counterexample :
    "hello".isEmpty = false ∧
    TtsEffect.offlineSpeak "hello" ∉
      speak "edge" "hello" (EdgeOutcome.runtimeError "connection reset") := by
  constructor
  · rfl
  · decide

/-- C9 (amended): for non-empty text on the `"edge"` engine, the offline
synthesizer is invoked as a fallback exactly when the failure was an
`ImportError` inside the coroutine or a failure of the `asyncio.run` call
itself; an ordinary network/runtime error inside the coroutine is caught and
printed without any fallback. -/
theorem edge_fallback_iff (text : String) (outcome : EdgeOutcome)
    (h : text.isEmpty = false) :
    (TtsEffect.offlineSpeak text ∈ speak "edge" text outcome) ↔
      ((∃ m, outcome = EdgeOutcome.importError m) ∨ outcome = EdgeOutcome.asyncRaised) := by
  cases outcome <;> simp [speak, speak_edge, h]

theorem edge_fallback_iff_witness :
    TtsEffect.offlineSpeak "hi" ∈ speak "edge" "hi" (EdgeOutcome.importError "no module") :=
  (edge_fallback_iff "hi" (EdgeOutcome.importError "no module") rfl).mpr
    (Or.inl ⟨"no module", rfl⟩)
